import Mathlib

/-!
Shallow embedding of `interfaces.py` from the WordCloudGenerator repository:
the request descriptor (`WordListRequestConfig`), the provider adapters
(`RedditInterface`, `TwitterInterface`), and the registry/dispatcher
(`DataInterfaceManager`).  External provider clients (praw, tweepy) are
modelled as explicit environment structures holding the item streams the
client library would yield; the client-library paging semantics that the
source relies on (praw's `limit=` cap, tweepy's `Cursor.items(limit)` with
`0` meaning "no limit") are embedded where the source calls them.
-/

/-- Helper for `pySplit`: scan the characters, `acc` holding the pending word
(reversed); a whitespace character closes the pending word, and empty
fragments are never emitted. -/
def pySplitChars : List Char → List Char → List String
  | [], acc => if acc.isEmpty then [] else [String.mk acc.reverse]
  | c :: cs, acc =>
    if c.isWhitespace then
      (if acc.isEmpty then [] else [String.mk acc.reverse]) ++ pySplitChars cs []
    else
      pySplitChars cs (c :: acc)

/-- Python `str.split()` with no argument: split on runs of whitespace,
discarding empty fragments. -/
def pySplit (s : String) : List String :=
  pySplitChars s.data []

/-- Python `str.capitalize()`: first character upper-cased, the rest
lower-cased. -/
def pyCapitalize (s : String) : String :=
  match s.data with
  | [] => ""
  | c :: cs => String.mk (c.toUpper :: cs.map Char.toLower)

/-- Python `dict.get(key, default)` over an association-list model of a dict
(only boolean values occur in the source: `extra_args.get('top_level_only',
False)`). -/
def dictGet (d : List (String × Bool)) (k : String) (dflt : Bool) : Bool :=
  match d.lookup k with
  | some v => v
  | none => dflt

/-- A reddit submission as seen by `from_subreddit`: only its `title` field is
read. -/
structure Submission where
  title : String
deriving DecidableEq

/-- A tweet as seen by the Twitter fetch routines: only its `text` field is
read. -/
structure Tweet where
  text : String
deriving DecidableEq

/-- A reddit comment with its `body` text and nested `replies`
(the comment tree praw exposes once `MoreComments` placeholders are
resolved). -/
inductive Comment where
  | mk (body : String) (replies : List Comment)

def Comment.body : Comment → String
  | .mk b _ => b

def Comment.replies : Comment → List Comment
  | .mk _ rs => rs

mutual

/-- Number of comments in a comment tree. -/
def Comment.size : Comment → Nat
  | .mk _ rs => 1 + Comment.sizeList rs

/-- Number of comments in a comment forest. -/
def Comment.sizeList : List Comment → Nat
  | [] => 0
  | c :: cs => Comment.size c + Comment.sizeList cs

end

theorem Comment.sizeList_append (l₁ l₂ : List Comment) :
    Comment.sizeList (l₁ ++ l₂) = Comment.sizeList l₁ + Comment.sizeList l₂ := by
  induction l₁ with
  | nil => simp [Comment.sizeList]
  | cons c cs ih => simp [Comment.sizeList, ih]; ring

theorem Comment.size_pos (c : Comment) : 0 < Comment.size c := by
  cases c with
  | mk b rs => simp [Comment.size]

/-- praw `CommentForest.list()`: flatten the forest with a FIFO queue — pop
the front comment, emit it, and append its replies to the back of the
queue. -/
def commentForestList (queue : List Comment) : List Comment :=
  match queue with
  | [] => []
  | c :: rest => c :: commentForestList (rest ++ c.replies)
termination_by Comment.sizeList queue
decreasing_by
  simp only [Comment.sizeList_append]
  cases c with
  | mk b rs =>
    simp [Comment.sizeList, Comment.size, Comment.replies]
    omega

/-- Every comment in the forest appears exactly once in the flattened list. -/
theorem length_commentForestList (queue : List Comment) :
    (commentForestList queue).length = Comment.sizeList queue := by
  induction queue using commentForestList.induct with
  | case1 => simp [commentForestList, Comment.sizeList]
  | case2 c rest ih =>
    rw [commentForestList]
    simp only [List.length_cons, ih, Comment.sizeList_append]
    cases c with
    | mk b rs =>
      simp [Comment.sizeList, Comment.size, Comment.replies]
      ring

/-!
## Request descriptor and error model
-/

/-- `WordListRequestConfig` from `interfaces.py` (a `NamedTuple`).  `time` is
carried for fidelity but never read by any routine in the source. -/
structure WordListRequestConfig where
  platform : String
  source_type : String
  source_value : String
  max_posts : Nat
  time : Option (Int × Int)
  sort : String
  extra_args : List (String × Bool)

/-- Errors a fetch can raise.  `invalidRequestConfig` is the single generic
`Exception` raised by `DataInterface.get_word_list` for a platform mismatch
or an unsupported source type; `attributeError` models a failed
`getattr` on a provider object (an unknown listing/sort name). -/
inductive FetchError where
  | invalidRequestConfig
  | attributeError
deriving DecidableEq

/-!
## Provider client models (praw / tweepy)

Each external client is an explicit structure holding the item streams the
client library would yield.  Streams are modelled as (finite prefixes of)
the provider's lazy result sequences.
-/

/-- A praw `Subreddit` object: `listings name` models `getattr(subreddit,
name)` — the listing generator for that sort name (`none` when the
attribute does not exist, which raises `AttributeError` in Python). -/
structure Subreddit where
  listings : String → Option (List Submission)

/-- A praw `Redditor` object: `comment_listings name` models
`getattr(user.comments, name)`. -/
structure Redditor where
  comment_listings : String → Option (List Comment)

/-- A praw `Submission` object as used by `from_post`: its full comment
forest (what the provider would serve once all `MoreComments` placeholders
are resolved). -/
structure SubmissionThread where
  forest : List Comment

/-- The praw `Reddit` client handle. -/
structure RedditAPI where
  subreddit : String → Subreddit
  redditor : String → Redditor
  submission : String → SubmissionThread

/-- The tweepy `API` client handle: `user_timeline name count` is the list of
tweets the server returns for `GET statuses/user_timeline` with that
`count` (server-side semantics, kept opaque); `search q` is the full lazy
result stream of the search endpoint for query `q`, paged client-side by
`tweepy.Cursor`. -/
structure TwitterAPI where
  user_timeline : String → Nat → List Tweet
  search : String → List Tweet

/-- tweepy `Cursor(...).items(limit)`: the item iterator stops after `limit`
items, except that `limit = 0` (tweepy's default) means *no limit* — the
iterator runs until the stream is exhausted. -/
def tweepyItems (stream : List Tweet) (limit : Nat) : List Tweet :=
  if limit = 0 then stream else stream.take limit

/-!
## RedditInterface
-/

/-- `RedditInterface.valid_source_types`. -/
def reddit_valid_source_types : List String := ["subreddit", "user", "post"]

/-- `RedditInterface.valid_sort_types` (stored by `__init__`; note that no
code path ever reads it). -/
def reddit_valid_sort_types : List String := ["top", "new", "controversial"]

/-- Lines 85–87 of `from_subreddit`: look up the subreddit, resolve the sort
listing by `getattr`, and draw at most `max_posts` submissions from it
(praw's `ListingGenerator` checks `limit` before pulling an item, so
`limit=n` consumes exactly `min n available` items). -/
def RedditInterface.subreddit_submissions (api : RedditAPI)
    (request_config : WordListRequestConfig) : Except FetchError (List Submission) :=
  let subreddit := api.subreddit request_config.source_value
  match subreddit.listings request_config.sort with
  | none => .error .attributeError
  | some stream => .ok (stream.take request_config.max_posts)

/-- `RedditInterface.from_subreddit`: accumulate `s.title.split()` over the
drawn submissions, in arrival order. -/
def RedditInterface.from_subreddit (api : RedditAPI)
    (request_config : WordListRequestConfig) : Except FetchError (List String) :=
  (RedditInterface.subreddit_submissions api request_config).map fun submissions =>
    submissions.foldl (fun words s => words ++ pySplit s.title) []

/-- Lines 94–97 of `from_user`: resolve the comment listing on
`user.comments` by `getattr` and draw at most `max_posts` comments. -/
def RedditInterface.user_comments (api : RedditAPI)
    (request_config : WordListRequestConfig) : Except FetchError (List Comment) :=
  let user := api.redditor request_config.source_value
  match user.comment_listings request_config.sort with
  | none => .error .attributeError
  | some stream => .ok (stream.take request_config.max_posts)

/-- `RedditInterface.from_user`: accumulate `c.body.split()` over the drawn
comments. -/
def RedditInterface.from_user (api : RedditAPI)
    (request_config : WordListRequestConfig) : Except FetchError (List String) :=
  (RedditInterface.user_comments api request_config).map fun comments =>
    comments.foldl (fun words c => words ++ pySplit c.body) []

/-- Lines 102–112 of `from_post`: `comment_limit = max_posts` caps the
top-level comments initially fetched; with `top_level_only` unset the code
calls `replace_more(limit=None)` (fully resolve reply placeholders) and
flattens with `comments.list()`, so every nested reply of the fetched
top-level comments is iterated; with `top_level_only` set it calls
`replace_more(limit=0)` and iterates only the top-level comments. -/
def RedditInterface.post_comments (api : RedditAPI)
    (request_config : WordListRequestConfig) : List Comment :=
  let submission := api.submission request_config.source_value
  let fetched := submission.forest.take request_config.max_posts
  if dictGet request_config.extra_args "top_level_only" false then
    fetched
  else
    commentForestList fetched

/-- `RedditInterface.from_post`: accumulate `c.body.split()` over the
iterated comments. -/
def RedditInterface.from_post (api : RedditAPI)
    (request_config : WordListRequestConfig) : Except FetchError (List String) :=
  .ok ((RedditInterface.post_comments api request_config).foldl
    (fun words c => words ++ pySplit c.body) [])

/-- `DataInterface.get_word_list` as inherited by `RedditInterface`:
raise the generic invalid-request `Exception` on a platform mismatch or an
unsupported source type, otherwise dispatch to `from_<source_type>` by
`getattr` (here: the three registered source types). -/
def RedditInterface.get_word_list (api : RedditAPI)
    (request_config : WordListRequestConfig) : Except FetchError (List String) :=
  if request_config.platform ≠ "reddit"
      ∨ request_config.source_type ∉ reddit_valid_source_types then
    .error .invalidRequestConfig
  else if request_config.source_type = "subreddit" then
    RedditInterface.from_subreddit api request_config
  else if request_config.source_type = "user" then
    RedditInterface.from_user api request_config
  else
    RedditInterface.from_post api request_config

/-!
## TwitterInterface
-/

/-- `TwitterInterface.valid_sources`. -/
def twitter_valid_sources : List String := ["user", "hashtag"]

/-- `TwitterInterface.valid_sort_types` (empty; stored and never read). -/
def twitter_valid_sort_types : List String := []

/-- `TwitterInterface.from_user`: the tweets `api.user_timeline(screen_name,
count=max_posts)` returns; how many the server sends back for a given
`count` is the server's choice, so it is whatever `user_timeline`
yields. -/
def TwitterInterface.user_tweets (api : TwitterAPI)
    (request_config : WordListRequestConfig) : List Tweet :=
  api.user_timeline request_config.source_value request_config.max_posts

def TwitterInterface.from_user (api : TwitterAPI)
    (request_config : WordListRequestConfig) : Except FetchError (List String) :=
  .ok ((TwitterInterface.user_tweets api request_config).foldl
    (fun words t => words ++ pySplit t.text) [])

/-- `TwitterInterface.from_hashtag` lines 135–137: page the search stream for
`#<source_value>` through `tweepy.Cursor(...).items(max_posts)`. -/
def TwitterInterface.hashtag_tweets (api : TwitterAPI)
    (request_config : WordListRequestConfig) : List Tweet :=
  tweepyItems (api.search ("#" ++ request_config.source_value)) request_config.max_posts

def TwitterInterface.from_hashtag (api : TwitterAPI)
    (request_config : WordListRequestConfig) : Except FetchError (List String) :=
  .ok ((TwitterInterface.hashtag_tweets api request_config).foldl
    (fun words t => words ++ pySplit t.text) [])

/-- `DataInterface.get_word_list` as inherited by `TwitterInterface`. -/
def TwitterInterface.get_word_list (api : TwitterAPI)
    (request_config : WordListRequestConfig) : Except FetchError (List String) :=
  if request_config.platform ≠ "twitter"
      ∨ request_config.source_type ∉ twitter_valid_sources then
    .error .invalidRequestConfig
  else if request_config.source_type = "user" then
    TwitterInterface.from_user api request_config
  else
    TwitterInterface.from_hashtag api request_config

/-!
## DataInterfaceManager (registry and dispatch)
-/

/-- A credential bundle is opaque data passed verbatim to the client
constructor; modelled as an uninterpreted string. -/
def ApiKeys := String

/-- Errors adapter construction can raise: `providerInitError` models the
client library rejecting the bundle or handshake; `typeError` models
calling the abstract `DataInterface.__init__` with the wrong arity (which
is what `DataInterface(api_keys)` does). -/
inductive InitError where
  | providerInitError
  | typeError
deriving DecidableEq

/-- The environment of client constructors: `praw.Reddit(**keys)` and
`tweepy.AppAuthHandler(**keys)` / `tweepy.API(auth)`, each of which may
raise. -/
structure ProviderEnv where
  reddit_client : ApiKeys → Except InitError RedditAPI
  twitter_client : ApiKeys → Except InitError TwitterAPI

/-- A constructed data-interface object as stored in
`DataInterfaceManager.interfaces`. -/
inductive DataInterfaceValue where
  | reddit (api : RedditAPI)
  | twitter (api : TwitterAPI)

/-- The `self.platform` attribute each `__init__` sets. -/
def DataInterfaceValue.platform : DataInterfaceValue → String
  | .reddit _ => "reddit"
  | .twitter _ => "twitter"

/-- Delegation `self.interfaces[platform].get_word_list(request_config)`. -/
def DataInterfaceValue.get_word_list :
    DataInterfaceValue → WordListRequestConfig → Except FetchError (List String)
  | .reddit api, cfg => RedditInterface.get_word_list api cfg
  | .twitter api, cfg => TwitterInterface.get_word_list api cfg

/-- The top-level names of the module `interfaces.py` (its `globals()`):
imports, the `NamedTuple`, the manager, the abstract base and the two
concrete interface classes. -/
def moduleGlobals : List String :=
  ["NamedTuple", "Tuple", "datetime", "praw", "tweepy",
   "WordListRequestConfig", "DataInterfaceManager", "DataInterface",
   "RedditInterface", "TwitterInterface"]

/-- Python truthiness of the `exclude_list` argument: `None` and the empty
list are falsy. -/
def excludeTruthy : Option (List String) → Bool
  | none => false
  | some l => !l.isEmpty

/-- `interface_class(api_keys)` for a name found in `globals()`: the two
concrete classes build a client from the bundle; `DataInterface` (reachable
for a platform key whose `capitalize()` is `"Data"`) raises `TypeError`
because its `__init__` takes five arguments. -/
def construct_interface (env : ProviderEnv) (expected_class_name : String)
    (api_keys : ApiKeys) : Except InitError DataInterfaceValue :=
  if expected_class_name = "RedditInterface" then
    (env.reddit_client api_keys).map .reddit
  else if expected_class_name = "TwitterInterface" then
    (env.twitter_client api_keys).map .twitter
  else
    .error .typeError

/-- The loop body of `DataInterfaceManager.autopopulate` over the entries of
`api_key_dict` (insertion-ordered, unique keys), threading the mutable
`self.interfaces` dict as an accumulator.  An exception from
`interface_class(api_keys)` propagates out of the loop. -/
def autopopulateLoop (env : ProviderEnv) (exclude_list : Option (List String)) :
    List (String × ApiKeys) → List (String × DataInterfaceValue) →
      Except InitError (List (String × DataInterfaceValue))
  | [], interfaces => .ok interfaces
  | (platform, api_keys) :: rest, interfaces =>
    let expected_class_name := pyCapitalize platform ++ "Interface"
    if expected_class_name ∉ moduleGlobals
        ∨ (excludeTruthy exclude_list ∧ platform ∉ exclude_list.getD []) then
      autopopulateLoop env exclude_list rest interfaces
    else
      match construct_interface env expected_class_name api_keys with
      | .error e => .error e
      | .ok itf => autopopulateLoop env exclude_list rest (interfaces ++ [(platform, itf)])

/-- `DataInterfaceManager.autopopulate`, starting from the empty
`self.interfaces`. -/
def DataInterfaceManager.autopopulate (env : ProviderEnv)
    (api_key_dict : List (String × ApiKeys)) (exclude_list : Option (List String)) :
    Except InitError (List (String × DataInterfaceValue)) :=
  autopopulateLoop env exclude_list api_key_dict []

/-- The manager: its populated `interfaces` dict. -/
structure DataInterfaceManager where
  interfaces : List (String × DataInterfaceValue)

/-- `DataInterfaceManager.__init__`: populate `self.interfaces` (construction
aborts if `autopopulate` raises). -/
def DataInterfaceManager.init (env : ProviderEnv)
    (api_key_dict : List (String × ApiKeys))
    (excluded_from_autopopulate : Option (List String) := none) :
    Except InitError DataInterfaceManager :=
  (DataInterfaceManager.autopopulate env api_key_dict excluded_from_autopopulate).map
    DataInterfaceManager.mk

/-- `self.platforms = self.interfaces.keys()`. -/
def DataInterfaceManager.platforms (m : DataInterfaceManager) : List String :=
  m.interfaces.map Prod.fst

/-- `DataInterfaceManager.request_word_list`: `None` (modelled `.ok none`)
when the platform has no interface, otherwise delegate and wrap the
result. -/
def DataInterfaceManager.request_word_list (m : DataInterfaceManager)
    (request_config : WordListRequestConfig) :
    Except FetchError (Option (List String)) :=
  match m.interfaces.lookup request_config.platform with
  | none => .ok none
  | some itf => (itf.get_word_list request_config).map some

/-!
## Concrete test fixtures (used by witnesses and counterexamples)
-/

deriving instance DecidableEq for Except

/-- A request descriptor literal. -/
def mkConfig (platform source_type source_value : String) (max_posts : Nat)
    (sort : String) (extra : List (String × Bool) := []) : WordListRequestConfig :=
  ⟨platform, source_type, source_value, max_posts, none, sort, extra⟩

def testSubmissions : List Submission := [⟨"alpha beta"⟩, ⟨"gamma"⟩, ⟨"delta"⟩]

def testComments : List Comment := [.mk "c one" [], .mk "c two" [], .mk "c three" []]

/-- A reddit client stub: subreddits answer the `top` and `hot` listings,
redditors answer `top`, and every post has one top-level comment carrying
one nested reply. -/
def testRedditAPI : RedditAPI where
  subreddit _ :=
    ⟨fun sortName =>
      if sortName = "top" ∨ sortName = "hot" then some testSubmissions else none⟩
  redditor _ :=
    ⟨fun sortName => if sortName = "top" then some testComments else none⟩
  submission _ := ⟨[.mk "parent" [.mk "reply" []]]⟩

/-- A Twitter client stub with a two-tweet search stream. -/
def testTwitterAPI : TwitterAPI where
  user_timeline _ _ := [⟨"tweet one"⟩]
  search _ := [⟨"hello world"⟩, ⟨"second tweet"⟩]

/-- Client constructors that always succeed, handing out the stub clients. -/
def testEnv : ProviderEnv where
  reddit_client _ := .ok testRedditAPI
  twitter_client _ := .ok testTwitterAPI

/-- Client constructors where the reddit handshake fails. -/
def failRedditEnv : ProviderEnv where
  reddit_client _ := .error .providerInitError
  twitter_client _ := .ok testTwitterAPI

/-- An opaque credential bundle. -/
def someKeys : ApiKeys := "keys"

example :
    RedditInterface.from_subreddit testRedditAPI
      (mkConfig "reddit" "subreddit" "python" 2 "top") =
      .ok ["alpha", "beta", "gamma"] := by decide

example :
    (DataInterfaceManager.autopopulate testEnv
        [("reddit", someKeys), ("twitter", someKeys)] (some ["reddit"])).map
        (List.map Prod.fst) = .ok ["reddit"] := by decide

/-!
## General lemmas
-/

/-- The word-accumulation loop `words.extend(item.text.split())` over a list
of items equals the flattened, order-preserving concatenation of each
item's split text. -/
theorem foldl_extend_split {α : Type} (f : α → List String) (l : List α)
    (init : List String) :
    l.foldl (fun words x => words ++ f x) init = init ++ (l.map f).flatten := by
  induction l generalizing init with
  | nil => simp
  | cons x xs ih => simp [List.foldl, ih]

/-!
## Claim theorems
-/

/-- C1: the claim states that `autopopulate` constructs an adapter for
platform `p` iff an adapter type is registered for `p` and `p` is not in
the exclude set.  The code's skip condition is inverted: with credentials
for `reddit` and `twitter` and exclude set `{reddit}` it builds exactly the
adapter for the *excluded* platform `reddit` and skips `twitter`. -/
theorem C1_autopopulate_keeps_excluded_platform :
    (DataInterfaceManager.autopopulate testEnv
        [("reddit", someKeys), ("twitter", someKeys)] (some ["reddit"])).map
      (List.map Prod.fst) = .ok ["reddit"] := by decide

/-- C5: the claim states that a present, non-empty sort mode outside
`supportedSortModes` makes `fetch` fail with `UnsupportedSortModeError` for
ordering source types.  The code never reads `valid_sort_types`: the sort
mode `hot` is not in `reddit_valid_sort_types`, yet `get_word_list` on a
subreddit request succeeds, fetching through the provider's `hot`
listing. -/
theorem C5_unsupported_sort_mode_not_rejected :
    "hot" ∉ reddit_valid_sort_types ∧
    RedditInterface.get_word_list testRedditAPI
      (mkConfig "reddit" "subreddit" "python" 3 "hot") =
      .ok ["alpha", "beta", "gamma", "delta"] := by decide

/-- C6: the claim states that `maxItems = 0` yields an empty word sequence
with no item pulled from the provider stream.  For the hashtag source the
code hands `max_posts` to `tweepy.Cursor(...).items`, where a limit of `0`
means *no limit*: with `max_posts = 0` the whole two-tweet search stream is
consumed and its words returned. -/
theorem C6_hashtag_zero_cap_fetches_all :
    (mkConfig "twitter" "hashtag" "tag" 0 "").max_posts = 0 ∧
    TwitterInterface.from_hashtag testTwitterAPI
      (mkConfig "twitter" "hashtag" "tag" 0 "") =
      .ok ["hello", "world", "second", "tweet"] := by decide

/-- C4: a request whose source type is not in the adapter's supported set is
rejected with the invalid-request error, for every provider client — the
result does not depend on the client, so no provider call is made before
the failure. -/
theorem C4_unsupported_source_type_rejected (cfg : WordListRequestConfig) :
    (cfg.source_type ∉ reddit_valid_source_types →
      ∀ api : RedditAPI,
        RedditInterface.get_word_list api cfg = .error .invalidRequestConfig) ∧
    (cfg.source_type ∉ twitter_valid_sources →
      ∀ api : TwitterAPI,
        TwitterInterface.get_word_list api cfg = .error .invalidRequestConfig) := by
  constructor
  · intro h api
    unfold RedditInterface.get_word_list
    rw [if_pos (Or.inr h)]
  · intro h api
    unfold TwitterInterface.get_word_list
    rw [if_pos (Or.inr h)]

/-- C4 witness: the unregistered source type `bogus` is rejected by both
adapters at a concrete request, with the stub clients untouched. -/
theorem C4_witness :
    RedditInterface.get_word_list testRedditAPI
      (mkConfig "reddit" "bogus" "python" 3 "top") = .error .invalidRequestConfig ∧
    TwitterInterface.get_word_list testTwitterAPI
      (mkConfig "twitter" "bogus" "x" 3 "") = .error .invalidRequestConfig :=
  ⟨(C4_unsupported_source_type_rejected (mkConfig "reddit" "bogus" "python" 3 "top")).1
      (by decide) testRedditAPI,
   (C4_unsupported_source_type_rejected (mkConfig "twitter" "bogus" "x" 3 "")).2
      (by decide) testTwitterAPI⟩

/-- C10: an adapter never serves a request addressed to a different
platform: whenever `request.platform` differs from the adapter's own
platform name, `get_word_list` raises the invalid-request error, for every
provider client and in particular even when the source type is
supported. -/
theorem C10_platform_mismatch_rejected (cfg : WordListRequestConfig) :
    (cfg.platform ≠ "reddit" →
      ∀ api : RedditAPI,
        RedditInterface.get_word_list api cfg = .error .invalidRequestConfig) ∧
    (cfg.platform ≠ "twitter" →
      ∀ api : TwitterAPI,
        TwitterInterface.get_word_list api cfg = .error .invalidRequestConfig) := by
  constructor
  · intro h api
    unfold RedditInterface.get_word_list
    rw [if_pos (Or.inl h)]
  · intro h api
    unfold TwitterInterface.get_word_list
    rw [if_pos (Or.inl h)]

/-- C10 witness: a request for platform `twitter` with the reddit-supported
source type `subreddit` is rejected by the reddit adapter, and a request
for platform `reddit` with the twitter-supported source type `user` is
rejected by the twitter adapter. -/
theorem C10_witness :
    RedditInterface.get_word_list testRedditAPI
      (mkConfig "twitter" "subreddit" "python" 3 "top") = .error .invalidRequestConfig ∧
    TwitterInterface.get_word_list testTwitterAPI
      (mkConfig "reddit" "user" "x" 3 "") = .error .invalidRequestConfig :=
  ⟨(C10_platform_mismatch_rejected (mkConfig "twitter" "subreddit" "python" 3 "top")).1
      (by decide) testRedditAPI,
   (C10_platform_mismatch_rejected (mkConfig "reddit" "user" "x" 3 "")).2
      (by decide) testTwitterAPI⟩

/-- C2 counterexample: with credentials for `reddit` and `beta` (no adapter
type registered for `beta`), the manager's adapter set is `{reddit}`, and
dispatching a request for platform `beta` does *not* fail — the code
returns `None` (the commented-out design note in the source notwithstanding,
no `UnknownPlatformError` is raised). -/
theorem C2_counterexample :
    (DataInterfaceManager.init testEnv [("reddit", someKeys), ("beta", someKeys)]).map
      (fun m => m.request_word_list (mkConfig "beta" "hashtag" "x" 5 "top")) =
      .ok (.ok none) := by decide

/-- C2 (amended): `request_word_list` returns `None` when the request's
platform has no interface in the manager, and otherwise delegates to that
interface's `get_word_list` and returns its result. -/
theorem C2_dispatch (m : DataInterfaceManager) (cfg : WordListRequestConfig) :
    (m.interfaces.lookup cfg.platform = none → m.request_word_list cfg = .ok none) ∧
    (∀ itf, m.interfaces.lookup cfg.platform = some itf →
      m.request_word_list cfg = (itf.get_word_list cfg).map some) := by
  constructor
  · intro h
    unfold DataInterfaceManager.request_word_list
    rw [h]
  · intro itf h
    unfold DataInterfaceManager.request_word_list
    rw [h]

/-- C2 witness: on a one-adapter manager, dispatch for the absent platform
`beta` yields `None`, and dispatch for `reddit` yields the delegated fetch
result. -/
theorem C2_dispatch_witness :
    (DataInterfaceManager.mk [("reddit", .reddit testRedditAPI)]).request_word_list
        (mkConfig "beta" "hashtag" "x" 5 "top") = .ok none ∧
    (DataInterfaceManager.mk [("reddit", .reddit testRedditAPI)]).request_word_list
        (mkConfig "reddit" "subreddit" "python" 2 "top") =
      ((DataInterfaceValue.reddit testRedditAPI).get_word_list
        (mkConfig "reddit" "subreddit" "python" 2 "top")).map some :=
  ⟨(C2_dispatch (DataInterfaceManager.mk [("reddit", .reddit testRedditAPI)])
      (mkConfig "beta" "hashtag" "x" 5 "top")).1 rfl,
   (C2_dispatch (DataInterfaceManager.mk [("reddit", .reddit testRedditAPI)])
      (mkConfig "reddit" "subreddit" "python" 2 "top")).2
      (DataInterfaceValue.reddit testRedditAPI) rfl⟩

/-- C7: word aggregation is order-preserving and field-literal — for every
provider stream behind a subreddit request, `from_subreddit` returns
exactly the concatenation, in item-arrival order, of each drawn
submission's title split on whitespace. -/
theorem C7_word_aggregation_flattens (api : RedditAPI)
    (cfg : WordListRequestConfig) (stream : List Submission)
    (h : (api.subreddit cfg.source_value).listings cfg.sort = some stream) :
    RedditInterface.from_subreddit api cfg =
      .ok ((stream.take cfg.max_posts).map (fun s => pySplit s.title)).flatten := by
  simp only [RedditInterface.from_subreddit, RedditInterface.subreddit_submissions, h]
  simp [Except.map, foldl_extend_split]

/-- C7 witness: item titles `"alpha beta"` and `"gamma"` flatten to exactly
`["alpha", "beta", "gamma"]` — no reordering, no deduplication, no case
folding. -/
theorem C7_word_aggregation_witness :
    RedditInterface.from_subreddit testRedditAPI
      (mkConfig "reddit" "subreddit" "python" 2 "top") =
      .ok ["alpha", "beta", "gamma"] := by
  rw [C7_word_aggregation_flattens testRedditAPI
    (mkConfig "reddit" "subreddit" "python" 2 "top") testSubmissions (by decide)]
  decide

/-- C3 counterexample: a post with one top-level comment holding one nested
reply, fetched with `maxItems = 1` and full reply expansion, consumes and
returns 2 raw items — more than `maxItems`. -/
theorem C3_counterexample :
    (mkConfig "reddit" "post" "id1" 1 "top").max_posts = 1 ∧
    (RedditInterface.post_comments testRedditAPI
        (mkConfig "reddit" "post" "id1" 1 "top")).length = 2 ∧
    RedditInterface.from_post testRedditAPI (mkConfig "reddit" "post" "id1" 1 "top") =
      .ok ["parent", "reply"] := by
  have hpc : RedditInterface.post_comments testRedditAPI
      (mkConfig "reddit" "post" "id1" 1 "top") =
      [Comment.mk "parent" [Comment.mk "reply" []], Comment.mk "reply" []] := by
    simp [RedditInterface.post_comments, testRedditAPI, mkConfig, dictGet,
      commentForestList, Comment.replies]
  refine ⟨rfl, by simp [hpc], ?_⟩
  unfold RedditInterface.from_post
  rw [hpc]
  decide

/-- C3 (amended): the subreddit and user listings consume exactly
`min maxItems available` items; the hashtag cursor does the same when
`maxItems > 0`; a top-level-only post fetch consumes at most `maxItems`
top-level comments; but a fully expanded post fetch consumes every comment
in the expanded forest of the fetched threads, which is not bounded by
`maxItems`. -/
theorem C3_item_cap :
    (∀ (api : RedditAPI) (cfg : WordListRequestConfig) (stream : List Submission),
        (api.subreddit cfg.source_value).listings cfg.sort = some stream →
        ∃ items, RedditInterface.subreddit_submissions api cfg = .ok items ∧
          items.length = min cfg.max_posts stream.length) ∧
    (∀ (api : RedditAPI) (cfg : WordListRequestConfig) (stream : List Comment),
        (api.redditor cfg.source_value).comment_listings cfg.sort = some stream →
        ∃ items, RedditInterface.user_comments api cfg = .ok items ∧
          items.length = min cfg.max_posts stream.length) ∧
    (∀ (api : TwitterAPI) (cfg : WordListRequestConfig), cfg.max_posts ≠ 0 →
        (TwitterInterface.hashtag_tweets api cfg).length =
          min cfg.max_posts (api.search ("#" ++ cfg.source_value)).length) ∧
    (∀ (api : RedditAPI) (cfg : WordListRequestConfig),
        dictGet cfg.extra_args "top_level_only" false = true →
        (RedditInterface.post_comments api cfg).length ≤ cfg.max_posts) ∧
    (∀ (api : RedditAPI) (cfg : WordListRequestConfig),
        dictGet cfg.extra_args "top_level_only" false = false →
        (RedditInterface.post_comments api cfg).length =
          Comment.sizeList ((api.submission cfg.source_value).forest.take cfg.max_posts)) := by
  refine ⟨?_, ?_, ?_, ?_, ?_⟩
  · intro api cfg stream h
    refine ⟨stream.take cfg.max_posts, ?_, by simp⟩
    simp only [RedditInterface.subreddit_submissions, h]
  · intro api cfg stream h
    refine ⟨stream.take cfg.max_posts, ?_, by simp⟩
    simp only [RedditInterface.user_comments, h]
  · intro api cfg h
    simp [TwitterInterface.hashtag_tweets, tweepyItems, h]
  · intro api cfg h
    simp only [RedditInterface.post_comments, h, if_true]
    simp [List.length_take]
  · intro api cfg h
    simp only [RedditInterface.post_comments, h]
    simp [length_commentForestList]

/-- C3 witness: the amended statement at concrete inputs — a three-item
subreddit stream drawn with cap 2, a three-comment user stream drawn with
cap 2, a two-tweet hashtag stream drawn with cap 1, a top-level-only post
fetch with cap 1, and a fully expanded post fetch with cap 1. -/
theorem C3_item_cap_witness :
    (∃ items, RedditInterface.subreddit_submissions testRedditAPI
        (mkConfig "reddit" "subreddit" "python" 2 "top") = .ok items ∧
        items.length = min 2 3) ∧
    (∃ items, RedditInterface.user_comments testRedditAPI
        (mkConfig "reddit" "user" "someone" 2 "top") = .ok items ∧
        items.length = min 2 3) ∧
    (TwitterInterface.hashtag_tweets testTwitterAPI
        (mkConfig "twitter" "hashtag" "tag" 1 "")).length = min 1 2 ∧
    (RedditInterface.post_comments testRedditAPI
        (mkConfig "reddit" "post" "id1" 1 "top" [("top_level_only", true)])).length ≤ 1 ∧
    (RedditInterface.post_comments testRedditAPI
        (mkConfig "reddit" "post" "id1" 1 "top")).length =
      Comment.sizeList ((testRedditAPI.submission "id1").forest.take 1) :=
  ⟨C3_item_cap.1 testRedditAPI (mkConfig "reddit" "subreddit" "python" 2 "top")
      testSubmissions (by decide),
   C3_item_cap.2.1 testRedditAPI (mkConfig "reddit" "user" "someone" 2 "top")
      testComments rfl,
   C3_item_cap.2.2.1 testTwitterAPI (mkConfig "twitter" "hashtag" "tag" 1 "") (by decide),
   C3_item_cap.2.2.2.1 testRedditAPI
      (mkConfig "reddit" "post" "id1" 1 "top" [("top_level_only", true)]) (by decide),
   C3_item_cap.2.2.2.2 testRedditAPI (mkConfig "reddit" "post" "id1" 1 "top") (by decide)⟩

/-- Accumulator invariant for `autopopulateLoop`: when every pending
credential key is one of the canonical lowercase platform names, every
interface the loop stores sits under a key equal to its own platform
name. -/
theorem autopopulateLoop_platform_inv (env : ProviderEnv)
    (exclude : Option (List String)) :
    ∀ (entries : List (String × ApiKeys)) (acc res : List (String × DataInterfaceValue)),
      (∀ kv ∈ entries, kv.1 = "reddit" ∨ kv.1 = "twitter") →
      (∀ kv ∈ acc, kv.2.platform = kv.1) →
      autopopulateLoop env exclude entries acc = .ok res →
      ∀ kv ∈ res, kv.2.platform = kv.1 := by
  intro entries
  induction entries with
  | nil =>
    intro acc res _ hacc h
    simp only [autopopulateLoop] at h
    cases h
    exact hacc
  | cons e rest ih =>
    intro acc res hkeys hacc h
    obtain ⟨platform, keys⟩ := e
    have hkey : platform = "reddit" ∨ platform = "twitter" :=
      hkeys (platform, keys) (List.mem_cons_self _ _)
    have hrest : ∀ kv ∈ rest, kv.1 = "reddit" ∨ kv.1 = "twitter" :=
      fun kv hkv => hkeys kv (List.mem_cons_of_mem _ hkv)
    simp only [autopopulateLoop] at h
    by_cases hc : (pyCapitalize platform ++ "Interface") ∉ moduleGlobals
        ∨ (excludeTruthy exclude ∧ platform ∉ exclude.getD [])
    · rw [if_pos hc] at h
      exact ih acc res hrest hacc h
    · rw [if_neg hc] at h
      rcases hkey with hk | hk
      · subst hk
        have hname : construct_interface env (pyCapitalize "reddit" ++ "Interface") keys =
            (env.reddit_client keys).map .reddit := by
          rw [show pyCapitalize "reddit" ++ "Interface" = "RedditInterface" from rfl]
          simp [construct_interface]
        rw [hname] at h
        cases hcc : env.reddit_client keys with
        | error e' => rw [hcc] at h; simp [Except.map] at h
        | ok api =>
          rw [hcc] at h
          simp only [Except.map] at h
          refine ih (acc ++ [("reddit", .reddit api)]) res hrest ?_ h
          intro kv hkv
          rcases List.mem_append.mp hkv with hmem | hmem
          · exact hacc kv hmem
          · simp only [List.mem_singleton] at hmem
            subst hmem
            rfl
      · subst hk
        have hname : construct_interface env (pyCapitalize "twitter" ++ "Interface") keys =
            (env.twitter_client keys).map .twitter := by
          rw [show pyCapitalize "twitter" ++ "Interface" = "TwitterInterface" from rfl]
          simp [construct_interface]
        rw [hname] at h
        cases hcc : env.twitter_client keys with
        | error e' => rw [hcc] at h; simp [Except.map] at h
        | ok api =>
          rw [hcc] at h
          simp only [Except.map] at h
          refine ih (acc ++ [("twitter", .twitter api)]) res hrest ?_ h
          intro kv hkv
          rcases List.mem_append.mp hkv with hmem | hmem
          · exact hacc kv hmem
          · simp only [List.mem_singleton] at hmem
            subst hmem
            rfl

/-- C8 counterexample: the non-lowercase credential key `Reddit` still
constructs an adapter (`"Reddit".capitalize()` is `Reddit`, so the class is
found), and the stored adapter's platform name is `reddit`, which differs
from its registry key `Reddit`. -/
theorem C8_counterexample :
    "reddit" ≠ "Reddit" ∧
    (DataInterfaceManager.autopopulate testEnv [("Reddit", someKeys)] none).map
      (List.map (fun kv => (kv.1, kv.2.platform))) = .ok [("Reddit", "reddit")] := by
  constructor
  · decide
  · rfl

/-- C8 (amended): when every credential key is one of the canonical lowercase
platform names (`reddit`, `twitter`), every key `k` of the populated
`interfaces` dict satisfies `interfaces[k].platform = k`; a non-lowercase
key such as `Reddit` breaks the invariant. -/
theorem C8_registry_invariant (env : ProviderEnv)
    (api_key_dict : List (String × ApiKeys)) (exclude : Option (List String))
    (interfaces : List (String × DataInterfaceValue))
    (hkeys : ∀ kv ∈ api_key_dict, kv.1 = "reddit" ∨ kv.1 = "twitter")
    (h : DataInterfaceManager.autopopulate env api_key_dict exclude = .ok interfaces) :
    ∀ kv ∈ interfaces, kv.2.platform = kv.1 :=
  autopopulateLoop_platform_inv env exclude api_key_dict [] interfaces hkeys
    (by simp) h

/-- C8 witness: for the lowercase key `reddit` the stored adapter's platform
name equals the key. -/
theorem C8_registry_invariant_witness :
    DataInterfaceValue.platform (DataInterfaceValue.reddit testRedditAPI) = "reddit" :=
  C8_registry_invariant testEnv [("reddit", someKeys)] none
    [("reddit", DataInterfaceValue.reddit testRedditAPI)] (by decide) rfl
    ("reddit", DataInterfaceValue.reddit testRedditAPI) (by simp)

/-- C9 counterexample: with a provider environment whose reddit handshake
fails, initializing from credentials for `reddit` and `twitter` does not
complete with the twitter adapter present — the whole `autopopulate` run
aborts with the construction error. -/
theorem C9_counterexample :
    (DataInterfaceManager.autopopulate failRedditEnv
        [("reddit", someKeys), ("twitter", someKeys)] none).map
      (List.map Prod.fst) = .error .providerInitError := by decide

/-- A construction failure anywhere in the credentials list propagates out of
the loop: once every earlier entry is either skipped by the loop's
condition or constructs successfully, the loop reaches the failing entry
and returns its error, whatever the accumulated interfaces and whatever
entries follow. -/
theorem autopopulateLoop_fail_propagates (env : ProviderEnv)
    (exclude : Option (List String)) (platform : String) (keys : ApiKeys)
    (rest : List (String × ApiKeys)) (e : InitError)
    (hclass : (pyCapitalize platform ++ "Interface") ∈ moduleGlobals)
    (hexcl : ¬(excludeTruthy exclude ∧ platform ∉ exclude.getD []))
    (hfail : construct_interface env (pyCapitalize platform ++ "Interface") keys =
      .error e) :
    ∀ (pre : List (String × ApiKeys)),
      (∀ p ∈ pre, ((pyCapitalize p.1 ++ "Interface") ∉ moduleGlobals
          ∨ (excludeTruthy exclude ∧ p.1 ∉ exclude.getD []))
        ∨ ∃ itf, construct_interface env (pyCapitalize p.1 ++ "Interface") p.2 = .ok itf) →
      ∀ acc, autopopulateLoop env exclude (pre ++ (platform, keys) :: rest) acc =
        .error e := by
  intro pre
  induction pre with
  | nil =>
    intro _ acc
    simp only [List.nil_append, autopopulateLoop]
    rw [if_neg (fun hor => hor.elim (fun hni => hni hclass) hexcl), hfail]
  | cons p prefront ih =>
    intro hpre acc
    obtain ⟨q, qkeys⟩ := p
    simp only [List.cons_append, autopopulateLoop]
    by_cases hs : (pyCapitalize q ++ "Interface") ∉ moduleGlobals
        ∨ (excludeTruthy exclude ∧ q ∉ exclude.getD [])
    · rw [if_pos hs]
      exact ih (fun p hp => hpre p (List.mem_cons_of_mem _ hp)) acc
    · rw [if_neg hs]
      rcases hpre (q, qkeys) (List.mem_cons_self _ _) with hskip | ⟨itf, hok⟩
      · exact absurd hskip hs
      · rw [hok]
        exact ih (fun p hp => hpre p (List.mem_cons_of_mem _ hp)) (acc ++ [(q, itf)])

/-- C9 (amended): adapter construction failure is fail-fast, not fail-soft —
if any platform of the credentials mapping has a registered adapter type,
is not skipped by the exclude condition, and its construction raises (each
platform before it being skipped or constructing successfully, so the loop
reaches it), then the error propagates and manager initialization aborts:
no manager is produced, adapters already constructed are discarded, and
platforms after the failing one are never constructed. -/
theorem C9_init_fail_fast (env : ProviderEnv) (pre : List (String × ApiKeys))
    (platform : String) (keys : ApiKeys) (rest : List (String × ApiKeys))
    (exclude : Option (List String)) (e : InitError)
    (hpre : ∀ p ∈ pre, ((pyCapitalize p.1 ++ "Interface") ∉ moduleGlobals
        ∨ (excludeTruthy exclude ∧ p.1 ∉ exclude.getD []))
      ∨ ∃ itf, construct_interface env (pyCapitalize p.1 ++ "Interface") p.2 = .ok itf)
    (hclass : (pyCapitalize platform ++ "Interface") ∈ moduleGlobals)
    (hexcl : ¬(excludeTruthy exclude ∧ platform ∉ exclude.getD []))
    (hfail : construct_interface env (pyCapitalize platform ++ "Interface") keys =
      .error e) :
    DataInterfaceManager.init env (pre ++ (platform, keys) :: rest) exclude =
      .error e := by
  unfold DataInterfaceManager.init DataInterfaceManager.autopopulate
  rw [autopopulateLoop_fail_propagates env exclude platform keys rest e hclass hexcl
    hfail pre hpre []]
  rfl

/-- C9 witness: the fail-fast behavior at a concrete failing environment with
the failure in second position — the twitter adapter constructs first,
then reddit's client constructor raises, and initialization with
credentials for `twitter` followed by `reddit` aborts with that error. -/
theorem C9_init_fail_fast_witness :
    DataInterfaceManager.init failRedditEnv
      [("twitter", someKeys), ("reddit", someKeys)] none = .error .providerInitError :=
  C9_init_fail_fast failRedditEnv [("twitter", someKeys)] "reddit" someKeys [] none
    .providerInitError
    (by
      intro p hp
      simp only [List.mem_singleton] at hp
      subst hp
      exact Or.inr ⟨.twitter testTwitterAPI, rfl⟩)
    (by decide) (by decide) rfl
